import Mathlib

/-!
Verification of the data-analysis-agent repository: a shallow embedding in
Lean 4 of the execution-and-recovery loop (engines, safe executor, execution
memory, planner and corrector retry policies, orchestrator step loop),
with theorems settling the specification claims against it.

Conventions of the embedding:
* Python exceptions are values of `PyExn`; a call that may raise is an
  `Except PyExn _` value.  A `try/except` becomes a `match` on that value.
* Rows returned by an engine are opaque; we model one row as a `String`.
* The behaviour of an external engine (what its `connect`, `execute_query`,
  `validate_code`, `close` calls do) is supplied as data in `EngineSpec`,
  since concrete backends are out of scope for the executor's contract.
-/

set_option maxRecDepth 100000

namespace Agent

/-- Decidable equality for `Except`, used to evaluate the models on
concrete inputs. -/
instance {ε α : Type} [DecidableEq ε] [DecidableEq α] :
    DecidableEq (Except ε α) := fun a b =>
  match a, b with
  | .ok x, .ok y =>
      if h : x = y then isTrue (by rw [h])
      else isFalse (fun hh => by cases hh; exact h rfl)
  | .error x, .error y =>
      if h : x = y then isTrue (by rw [h])
      else isFalse (fun hh => by cases hh; exact h rfl)
  | .ok _, .error _ => isFalse (fun hh => Except.noConfusion hh)
  | .error _, .ok _ => isFalse (fun hh => Except.noConfusion hh)

/-- A row of an engine result (opaque payload). -/
abbrev Row := String

/-- A Python exception: `execute_safely` distinguishes `ValueError` from any
other exception, so the model keeps that distinction. -/
inductive PyExn where
  | valueError (msg : String)
  | otherError (msg : String)
deriving Repr, DecidableEq

/-- The message text carried by an exception (`str(e)` in the source). -/
def PyExn.msg : PyExn → String
  | .valueError m => m
  | .otherError m => m

/-- Behaviour of one engine object as seen by `QueryExecutor.execute_safely`
(src/engine/executor.py): whether the duck-typed capabilities are present,
and the outcome of each call.  `execute` returning `Except.ok none` models
the Python method returning `None`. -/
structure EngineSpec where
  has_validate : Bool
  has_execute : Bool
  validate : String → Except PyExn Bool
  connect : Except PyExn Unit
  execute : String → Except PyExn (Option (List Row))
  close : Except PyExn Unit

/-- The `(success, result, error_message)` triple returned by
`execute_safely` (src/engine/executor.py, lines 15-71). -/
structure Outcome where
  success : Bool
  result : List Row
  error : String
deriving Repr, DecidableEq

/-- Observable events of one `execute_safely` call, used to state the
connection-lifecycle properties. -/
structure Events where
  connectCalled : Bool
  connectSucceeded : Bool
  closeAttempted : Bool
  closeRaised : Bool
deriving Repr, DecidableEq

/-- Events of a run that returned before the `try` block around `connect`. -/
def Events.none : Events :=
  { connectCalled := false, connectSucceeded := false
    closeAttempted := false, closeRaised := false }

/-- The `finally` clause of `execute_safely`: `close()` is attempted when
`connection_established` is true; an exception from `close()` is caught and
logged (src/engine/executor.py lines 66-71). -/
def finallyClose (e : EngineSpec) : Events :=
  { connectCalled := true, connectSucceeded := true, closeAttempted := true
    closeRaised := match e.close with | .error _ => true | .ok _ => false }

/-- `QueryExecutor.execute_safely` (src/engine/executor.py lines 15-71),
with the outcome triple paired with the lifecycle events.  Mirrors the
source: capability probes, `validate_code` in its own `try/except`, then a
`try` around `connect`/`execute_query` with `except ValueError`,
`except Exception`, and a `finally` that closes only if
`connection_established` was set. -/
def execute_safely (e : EngineSpec) (query : String) : Outcome × Events :=
  if !e.has_validate then
    (⟨false, [], "数据引擎缺失 validate_code 方法"⟩, Events.none)
  else if !e.has_execute then
    (⟨false, [], "数据引擎缺失 execute_query 方法"⟩, Events.none)
  else
    match e.validate query with
    | .error ex =>
        (⟨false, [], "SQL 校验过程异常: " ++ ex.msg⟩, Events.none)
    | .ok false =>
        (⟨false, [], "SQL 校验未通过: " ++ query.take 50 ++ "..."⟩, Events.none)
    | .ok true =>
        match e.connect with
        | .error ex =>
            -- connect raised: connection_established is still false, so the
            -- finally clause does not attempt close.
            (⟨false, [],
              match ex with
              | .valueError m => "SQL 执行失败: " ++ m
              | .otherError m => "系统执行错误: " ++ m⟩,
             { connectCalled := true, connectSucceeded := false
               closeAttempted := false, closeRaised := false })
        | .ok _ =>
            match e.execute query with
            | .ok r =>
                -- `if result is None: result = []`
                (⟨true, r.getD [], ""⟩, finallyClose e)
            | .error (.valueError m) =>
                (⟨false, [], "SQL 执行失败: " ++ m⟩, finallyClose e)
            | .error (.otherError m) =>
                (⟨false, [], "系统执行错误: " ++ m⟩, finallyClose e)

/-! ## Keyword-based validation (src/engine/base.py, src/engine/spark_executor.py) -/

/-- ASCII upper-casing of one character; the queries the system handles are
ASCII SQL, for which this agrees with Python `str.upper`. -/
def asciiUpper (c : Char) : Char :=
  if 'a' ≤ c ∧ c ≤ 'z' then Char.ofNat (c.toNat - 32) else c

/-- `code.upper()` as a character list. -/
def upperChars (s : String) : List Char := s.toList.map asciiUpper

/-- Does the text start with the pattern? -/
def startsWithChars : List Char → List Char → Bool
  | [], _ => true
  | _ :: _, [] => false
  | p :: ps, c :: cs => p = c && startsWithChars ps cs

/-- Does the pattern occur contiguously anywhere in the text? -/
def hasSubChars (pat : List Char) : List Char → Bool
  | [] => startsWithChars pat []
  | c :: cs => startsWithChars pat (c :: cs) || hasSubChars pat cs

/-- Python's `kw in code.upper()`: substring containment after upper-casing
the code (the keywords in the source are already upper-case). -/
def containsKW (code kw : String) : Bool :=
  hasSubChars kw.toList (upperChars code)

/-- `DataEngine.validate_code` (src/engine/base.py lines 35-42): the base
class rejects a query when `"DROP" in code.upper()` or
`"DELETE" in code.upper()`, and accepts otherwise. -/
def base_validate_code (code : String) : Bool :=
  if containsKW code "DROP" || containsKW code "DELETE" then false else true

/-- Stated from the spec for comparison: the claimed default policy, which
rejects on any of the five mutation keywords DROP, DELETE, TRUNCATE,
INSERT, UPDATE as a case-insensitive substring. -/
def spec_claimed_mutation_reject (code : String) : Bool :=
  ["DROP", "DELETE", "TRUNCATE", "INSERT", "UPDATE"].any
    (fun kw => containsKW code kw)

/-- The forbidden-word blacklist of `SparkEngine.validate_code`
(src/engine/spark_executor.py line 75). -/
def spark_forbidden : List String :=
  ["DROP", "TRUNCATE", "INSERT", "DELETE", "UPDATE"]

/-- The aggregation / row-limiting keywords required by
`SparkEngine.validate_code` (src/engine/spark_executor.py line 82). -/
def spark_safe : List String :=
  ["COUNT", "SUM", "AVG", "GROUP BY", "LIMIT", "MAX", "MIN"]

/-- Behaviour of `self.spark.sql(q).explain()` for a live Spark session,
supplied as data (the cluster is external). -/
structure SparkSession where
  explainRun : String → Except PyExn Unit

/-- `SparkEngine.validate_code` (src/engine/spark_executor.py lines 68-93).
The field `self.spark` is `none` before `connect()`.  Step 3 of the source
wraps `self.spark.sql(query_code).explain()` in `try/except Exception`;
when `self.spark` is `None` the attribute access raises `AttributeError`
inside that `try`, so the handler catches it and the method returns
`False` — it does not raise.  The `none` branch below models exactly that. -/
def spark_validate_code (session : Option SparkSession) (q : String) : Bool :=
  if spark_forbidden.any (fun w => containsKW q w) then false
  else if !(spark_safe.any (fun w => containsKW q w)) then false
  else
    match session with
    | none => false
    | some s =>
        match s.explainRun q with
        | .ok _ => true
        | .error _ => false

/-- The unconnected `SparkEngine` (`self.spark = None`, src/engine/
spark_executor.py lines 8-15) packaged as an `EngineSpec` for
`execute_safely`: both methods exist, `validate_code` computes
`spark_validate_code none`, and `connect` raises (no cluster here; the
claims about this engine never reach `connect`). -/
def sparkUnconnected : EngineSpec :=
  { has_validate := true
    has_execute := true
    validate := fun q => .ok (spark_validate_code none q)
    connect := .error (.otherError "Spark 连接失败")
    execute := fun _ => .ok (some [])
    close := .ok () }

/-! ## Execution memory (src/core/memory.py) -/

/-- One record of `ExecutionMemory.history` (src/core/memory.py lines
15-23).  The wall-clock `timestamp` field carries no information the
claims touch and is omitted. -/
structure ExecRecord where
  step_id : Int
  step_name : String
  query : String
  success : Bool
  result_preview : Option String
  error : Option String
deriving Repr, DecidableEq

/-- Rendering of a Python value for the `str(result)` preview; rows are
opaque strings, so we render the list the way Lean shows it.  Only the
truncation behaviour matters to the claims. -/
def strOfRows (r : List Row) : String := toString r

/-- `ExecutionMemory.record_step` (src/core/memory.py lines 12-24): appends
one record, with `result_preview = str(result)[:200]` when a result was
passed and `None` otherwise. -/
def record_step (history : List ExecRecord) (step_id : Int)
    (step_name query : String) (result : Option (List Row))
    (error : Option String) (success : Bool) : List ExecRecord :=
  history ++ [{ step_id := step_id, step_name := step_name, query := query
                success := success
                result_preview := result.map (fun r => (strOfRows r).take 200)
                error := error }]

/-- How Python prints the `error` field inside an f-string (`None` when
absent). -/
def errText : Option String → String
  | none => "None"
  | some s => s

/-- One rendered block of the failure context (src/core/memory.py lines
34-36): step id and name, the query truncated to 100 characters, and the
error. -/
def failureBlock (f : ExecRecord) : String :=
  "步骤 " ++ toString f.step_id ++ ": " ++ f.step_name ++ "\n" ++
  "  查询: " ++ f.query.take 100 ++ "...\n" ++
  "  错误: " ++ errText f.error ++ "\n"

/-- `ExecutionMemory.get_failure_context` (src/core/memory.py lines 26-37):
filter the history to failures, return `""` when there are none, else
render a header and the blocks of `failures[-3:]` in order.  Python's
`l[-3:]` is `l.drop (l.length - 3)` (the whole list when shorter than 3). -/
def get_failure_context (history : List ExecRecord) : String :=
  let failures := history.filter (fun h => !h.success)
  if failures.isEmpty then ""
  else
    "【前期执行失败记录】\n" ++
    String.join ((failures.drop (failures.length - 3)).map failureBlock)

/-! ## Tenacity retry semantics (the `@retry` decorators of
src/agents/corrector.py and src/agents/planner.py) -/

/-- Inner loop of a tenacity `@retry` call.  `attempt` is the 1-based number
of the attempt about to run, `remaining` how many further attempts
`stop_after_attempt` still allows, `slept` the seconds of backoff so far.
The body either returns a value or raises `e`; a raised `e` is retried only
when the `retry=` predicate accepts it and attempts remain, sleeping
`wait attempt` seconds first; otherwise the exception propagates (the
decorators in this source use `reraise=True` or are never reached by an
exception).  Returns (result, attempts made, total seconds slept). -/
def tenacityGo (retryable : ε → Bool) (wait : Nat → Nat)
    (body : Nat → Except ε α) :
    Nat → Nat → Nat → Except ε α × Nat × Nat
  | attempt, remaining, slept =>
    match body attempt with
    | .ok a => (.ok a, attempt, slept)
    | .error e =>
      match remaining with
      | 0 => (.error e, attempt, slept)
      | r + 1 =>
          if retryable e then
            tenacityGo retryable wait body (attempt + 1) r (slept + wait attempt)
          else (.error e, attempt, slept)

/-- A tenacity `@retry(stop=stop_after_attempt maxAttempts, ...)` run. -/
def tenacityRun (maxAttempts : Nat) (retryable : ε → Bool) (wait : Nat → Nat)
    (body : Nat → Except ε α) : Except ε α × Nat × Nat :=
  tenacityGo retryable wait body 1 (maxAttempts - 1) 0

/-! ## Corrector (src/agents/corrector.py) -/

/-- `wait_exponential(multiplier=1, min=1, max=5)`: after attempt `n` the
wait is `multiplier * 2^n` clamped into `[1, 5]`. -/
def corrector_wait (n : Nat) : Nat := max 1 (min (2 ^ n) 5)

/-- The body of `CorrectorAgent.correct` (src/agents/corrector.py lines
27-65) as a function of the outcome of its `llm.chat` call: the call sits
inside `try/except Exception`, so a raised exception is caught and the
method returns `None`; on success it returns `revised_query.strip()`.
The body itself never raises. -/
def correct_body (llmOutcome : Except PyExn String) : Option String :=
  match llmOutcome with
  | .ok revised => some revised.trim
  | .error _ => none

/-- `CorrectorAgent.correct` together with its decorator
`@retry(stop=stop_after_attempt(2), wait=wait_exponential(multiplier=1,
min=1, max=5))` (src/agents/corrector.py line 26).  Tenacity's default
`retry=` predicate retries on any exception raised by the body.  `outcomes`
lists the result the `llm.chat` call would produce on each successive
attempt (attempt `n` uses entry `n-1`). -/
def correct_run (outcomes : List (Except PyExn String)) :
    Except PyExn (Option String) × Nat × Nat :=
  tenacityRun 2 (fun _ => true) corrector_wait
    (fun n => .ok (correct_body
      (outcomes.getD (n - 1) (.error (.otherError "no call")))))

/-! ## Planner data model and parsing (src/agents/planner.py) -/

/-- `AnalysisStep` (src/agents/planner.py lines 19-31). -/
structure AnalysisStep where
  step_id : Int
  step_name : String
  description : String
  tool_needed : String
  reasoning : String
deriving Repr, DecidableEq

/-- The allowed `tool_needed` values (src/agents/planner.py line 28). -/
def allowed_tools : List String := ["SQL_Executor", "Python_Plotter", "RAG_Search"]

/-- The `validate_tool` field validator: construction fails unless
`tool_needed` is one of the three allowed values. -/
def stepValid (s : AnalysisStep) : Bool := allowed_tools.contains s.tool_needed

/-- `AnalysisPlan` (src/agents/planner.py lines 33-42). -/
structure AnalysisPlan where
  goal : String
  steps : List AnalysisStep
  risk_assessment : String
deriving Repr, DecidableEq

/-- Pydantic construction succeeds exactly when `steps` is non-empty
(`validate_steps_not_empty`) and every step passes `validate_tool`. -/
def planValid (p : AnalysisPlan) : Bool :=
  !p.steps.isEmpty && p.steps.all stepValid

/-- Python `\s` for the ASCII range (the inputs here are ASCII). -/
def isPyWs (c : Char) : Bool :=
  c = ' ' || c = '\t' || c = '\n' || c = '\x0d' || c = '\x0b' || c = '\x0c'

/-- ASCII lower-casing of one character (for `re.IGNORECASE` matching). -/
def asciiLower (c : Char) : Char :=
  if 'A' ≤ c ∧ c ≤ 'Z' then Char.ofNat (c.toNat + 32) else c

/-- Case-insensitive match of a pattern at the head of the text, returning
the remainder of the text after the match. -/
def matchCIRest : List Char → List Char → Option (List Char)
  | [], l => some l
  | _ :: _, [] => none
  | p :: ps, c :: cs =>
      if asciiLower c = asciiLower p then matchCIRest ps cs else none

/-- Greedy `\s*`: drop the maximal run of whitespace at the head. -/
def consumeWs : List Char → List Char
  | [] => []
  | c :: cs => if isPyWs c then consumeWs cs else c :: cs

/-- The pattern of `re.sub(r"```json\s*", "", text, flags=re.IGNORECASE)`. -/
def tickJsonPat : List Char := "```json".toList

/-- Left-to-right, non-overlapping scan removing every occurrence of
```` ```json ```` (case-insensitive) together with the whitespace run that
follows it, structured on a fuel argument so the definition reduces in the
kernel.  A match consumes at least the 7 pattern characters, so with fuel
`l.length` (as `removeTickJson` passes) the fuel never runs out. -/
def removeTickJsonGo : Nat → List Char → List Char
  | 0, l => l
  | _ + 1, [] => []
  | fuel + 1, c :: cs =>
    match matchCIRest tickJsonPat (c :: cs) with
    | some after => removeTickJsonGo fuel (consumeWs after)
    | none => c :: removeTickJsonGo fuel cs

/-- The first substitution in `OutputParser.extract_json`
(src/agents/planner.py line 57): `re.sub(r"```json\s*", "", text,
flags=re.IGNORECASE)`. -/
def removeTickJson (l : List Char) : List Char :=
  removeTickJsonGo l.length l

/-- Exact removal of every occurrence of ```` ``` ```` — the second
substitution in `OutputParser.extract_json` (src/agents/planner.py
line 58). -/
def removeTicks : List Char → List Char
  | a :: b :: c :: cs =>
      if a = '`' ∧ b = '`' ∧ c = '`' then removeTicks cs
      else a :: removeTicks (b :: c :: cs)
  | [c, d] => [c, d]
  | [c] => [c]
  | [] => []

/-- Python `l.find(c)`: first index, `-1` when absent. -/
def pyFind (c : Char) (l : List Char) : Int :=
  match l.findIdx? (· = c) with
  | some i => (i : Int)
  | none => -1

/-- Python `l.rfind(c)`: last index, `-1` when absent. -/
def pyRFind (c : Char) (l : List Char) : Int :=
  match l.reverse.findIdx? (· = c) with
  | some i => ((l.length - 1 - i : Nat) : Int)
  | none => -1

/-- Python `l[a:b]` for non-negative bounds. -/
def pySlice (l : List Char) (a b : Int) : List Char :=
  (l.take b.toNat).drop a.toNat

/-- Python `str.strip()`: whitespace removed from both ends. -/
def stripWs (l : List Char) : List Char :=
  ((l.dropWhile isPyWs).reverse.dropWhile isPyWs).reverse

/-- `OutputParser.extract_json` (src/agents/planner.py lines 49-67): strip
markdown fence markers, then — when both a `{` and a `}` occur — cut to the
outermost brace-delimited region, and strip surrounding whitespace. -/
def extract_json (text : String) : String :=
  let cleaned := removeTicks (removeTickJson text.toList)
  let start := pyFind '{' cleaned
  let stop := pyRFind '}' cleaned + 1
  let sliced := if start ≠ -1 ∧ stop ≠ 0 then pySlice cleaned start stop else cleaned
  String.mk (stripWs sliced)

/-! ## Planner generation loop (src/agents/planner.py lines 78-115) -/

/-- An exception escaping one attempt of `generate_plan`: `parseFail`
stands for `json.JSONDecodeError` / pydantic `ValidationError` /
`ValueError` — the types listed in `retry_if_exception_type` — and
`transport` for any other exception (e.g. from `llm.chat`), which the
decorator does not retry. -/
inductive PlanErr where
  | parseFail (msg : String)
  | transport (msg : String)
deriving Repr, DecidableEq

/-- The `retry=retry_if_exception_type((json.JSONDecodeError,
ValidationError, ValueError))` predicate. -/
def planErrRetryable : PlanErr → Bool
  | .parseFail _ => true
  | .transport _ => false

/-- `wait_exponential(multiplier=1, min=2, max=10)`: after attempt `n` the
wait is `2^n` clamped into `[2, 10]` seconds. -/
def planner_wait (n : Nat) : Nat := max 2 (min (2 ^ n) 10)

/-- One attempt of `PlannerAgent.generate_plan` as a function of the
`llm.chat` outcome of that attempt.  `parseValidate` stands for
`json.loads` followed by pydantic `AnalysisPlan(**plan_dict)` construction;
its failure is raised and classified retryable, any exception from
`llm.chat` propagates unretried. -/
def plan_body (parseValidate : String → Except String AnalysisPlan)
    (llmOutcome : Except PyExn String) : Except PlanErr AnalysisPlan :=
  match llmOutcome with
  | .error e => .error (.transport e.msg)
  | .ok text =>
      match parseValidate (extract_json text) with
      | .ok plan => .ok plan
      | .error m => .error (.parseFail m)

/-- `PlannerAgent.generate_plan` with its decorator
`@retry(stop=stop_after_attempt(3), wait=wait_exponential(multiplier=1,
min=2, max=10), retry=retry_if_exception_type(...), reraise=True)`
(src/agents/planner.py lines 78-115).  `outcomes` lists the `llm.chat`
result of each successive attempt. -/
def generate_plan_run (parseValidate : String → Except String AnalysisPlan)
    (outcomes : List (Except PyExn String)) :
    Except PlanErr AnalysisPlan × Nat × Nat :=
  tenacityRun 3 planErrRetryable planner_wait
    (fun n => plan_body parseValidate
      (outcomes.getD (n - 1) (.error (.otherError "no response"))))

/-! ## Orchestrator per-step loop (src/main.py lines 100-155) -/

/-- One entry of the `results` mapping built by `analyze`
(`{"success": ..., "rows": ..., "error": ...}`). -/
structure StepResult where
  success : Bool
  rows : Nat
  error : String
deriving Repr, DecidableEq

/-- The mutable state the loop body of `analyze` touches: the execution
memory history, the `results` mapping (modelled as the association list in
insertion order) and the `all_data` accumulator. -/
structure AgentState where
  history : List ExecRecord
  results : List (String × StepResult)
  all_data : List (List Row)
deriving Repr, DecidableEq

/-- The outcomes of the external calls one iteration of the loop can make:
the optimised query from `sql_generator.optimize_query`, the outcome of the
first `executor.execute_safely` call, the value `corrector.correct` would
return, and the outcome of the re-execution of the revised query. -/
structure StepEnv where
  optimized_query : String
  exec1 : Outcome
  corrected : Option String
  exec2 : Outcome

/-- One iteration of the `for step in plan.steps` loop of
`DataAnalysisAgent.analyze` (src/main.py lines 100-155).  Only a
`SQL_Executor` step does anything: it executes, invokes the corrector when
`not success and error` (both Python-truthy), re-executes when the revised
query is truthy (not `None`, not `""`), then records the final outcome once
via `memory.record_step` with `query=step.description`, appends to
`all_data` on success, and writes the `results` entry.  (The
`rag_search.record_solution` call on a successful correction touches only
the external knowledge base and is outside this state.)  Any other
`tool_needed` value leaves the state untouched. -/
def processStep (env : StepEnv) (st : AgentState) (step : AnalysisStep) :
    AgentState :=
  if step.tool_needed = "SQL_Executor" then
    let o1 := env.exec1
    let final :=
      if !o1.success && o1.error ≠ "" then
        if (env.corrected.getD "") ≠ "" then env.exec2 else o1
      else o1
    let history := record_step st.history step.step_id step.step_name
      step.description (some final.result) (some final.error) final.success
    let all_data :=
      if final.success then st.all_data ++ [final.result] else st.all_data
    let results := st.results ++
      [("step_" ++ toString step.step_id,
        { success := final.success, rows := final.result.length
          error := final.error })]
    { history := history, results := results, all_data := all_data }
  else st

/-! ## Resilient (primary/fallback) executor -/

/-- The per-engine-path metrics of the resilient executor. -/
structure ExecMetrics where
  primary_success : Nat
  fallback_success : Nat
  total_failure : Nat
deriving Repr, DecidableEq

/-- Modelled from the spec: the primary/fallback orchestration layer
(spec §4.3) is missing from src — src/main.py imports `ExecutionStrategy`
from `engine.executor` and constructs `QueryExecutor(primary_engine=...,
fallback_engine=..., enable_fallback=...)` with `get_metrics()`, but
src/engine/executor.py defines only the single-engine executor.  Per the
spec: attempt the primary engine first; if the primary fails AND fallback
is enabled AND a fallback engine is configured, retry the query against
the fallback engine; count primary-success, fallback-success and
total-failure. -/
def resilient_execute (primary : EngineSpec) (fallback : Option EngineSpec)
    (enable_fallback : Bool) (m : ExecMetrics) (query : String) :
    Outcome × ExecMetrics :=
  let o1 := (execute_safely primary query).1
  if o1.success then
    (o1, { m with primary_success := m.primary_success + 1 })
  else
    match enable_fallback, fallback with
    | true, some fb =>
        let o2 := (execute_safely fb query).1
        if o2.success then
          (o2, { m with fallback_success := m.fallback_success + 1 })
        else (o2, { m with total_failure := m.total_failure + 1 })
    | _, _ => (o1, { m with total_failure := m.total_failure + 1 })

/-- The zeroed metrics a fresh executor starts with. -/
def ExecMetrics.zero : ExecMetrics :=
  { primary_success := 0, fallback_success := 0, total_failure := 0 }

/-! ## Concrete fixtures used by the theorems -/

/-- A JSON plan object as the capability might emit it (content is opaque
to the parsing layer being verified). -/
def planJsonText : String := "\x7b\"goal\": \"g\"\x7d"

/-- A capability response wrapping `planJsonText` in markdown fencing with
trailing prose. -/
def wrappedResponse : String :=
  "```json\n" ++ planJsonText ++ "\n```\nHope this helps!"

/-- A capability response with no structured output at all. -/
def badResponse : String := "The answer is 42."

/-- A structurally valid one-step plan. -/
def samplePlan : AnalysisPlan :=
  { goal := "g"
    steps := [{ step_id := 1, step_name := "s", description := "d"
                tool_needed := "SQL_Executor", reasoning := "r" }]
    risk_assessment := "low" }

/-- A concrete parse-and-validate oracle: succeeds exactly on
`planJsonText`. -/
def samplePV : String → Except String AnalysisPlan := fun s =>
  if s = planJsonText then .ok samplePlan
  else .error "Expecting value: line 1 column 1"

/-- An engine whose `connect` raises (primary path for the fallback
scenario). -/
def primaryConnFail : EngineSpec :=
  { has_validate := true, has_execute := true
    validate := fun _ => .ok true
    connect := .error (.otherError "cluster unreachable")
    execute := fun _ => .ok (some []), close := .ok () }

/-- A fully healthy engine (fallback path for the fallback scenario). -/
def fallbackOk : EngineSpec :=
  { has_validate := true, has_execute := true
    validate := fun _ => .ok true, connect := .ok ()
    execute := fun _ => .ok (some ["42"]), close := .ok () }

/-- An engine that passes validation, connects, and returns `None` from
`execute_query`. -/
def engineNoneResult : EngineSpec :=
  { has_validate := true, has_execute := true
    validate := fun _ => .ok true, connect := .ok ()
    execute := fun _ => .ok none, close := .ok () }

/-- A SQL step of a plan. -/
def step1 : AnalysisStep :=
  { step_id := 1, step_name := "agg", description := "SELECT SUM(x) FROM t"
    tool_needed := "SQL_Executor", reasoning := "safe" }

/-- A plotting step of a plan. -/
def stepPlot : AnalysisStep :=
  { step_id := 2, step_name := "plot", description := "plot it"
    tool_needed := "Python_Plotter", reasoning := "viz" }

/-- External-call outcomes for the correction scenario: the first execution
fails, the corrector returns a revised query, and re-execution succeeds. -/
def envCorrected : StepEnv :=
  { optimized_query := "SELECT SUM(x) FROM t LIMIT 100"
    exec1 := ⟨false, [], "SQL 执行失败: no table"⟩
    corrected := some "SELECT SUM(x) FROM t2"
    exec2 := ⟨true, ["7"], ""⟩ }

/-- The state at the start of the step loop. -/
def emptyState : AgentState := ⟨[], [], []⟩

/-- A failing execution record with the given step id. -/
def failRec (i : Int) : ExecRecord :=
  { step_id := i, step_name := "s", query := "q", success := false
    result_preview := none, error := some "err" }

/-- A succeeding execution record. -/
def okRec : ExecRecord :=
  { step_id := 0, step_name := "ok", query := "q", success := true
    result_preview := some "[]", error := some "" }

/-- A history with four failures around one success. -/
def sampleHistory : List ExecRecord :=
  [failRec 1, okRec, failRec 2, failRec 3, failRec 4]

/-! ## Helper lemmas -/

theorem str_prefixed_ne_empty (p s : String) (hp : p.data ≠ []) :
    p ++ s ≠ "" := by
  intro h
  have hd : (p ++ s).data = [] := by rw [h]
  rw [String.data_append] at hd
  exact hp (List.append_eq_nil.mp hd).1

theorem str_prefixed2_ne_empty (p s t : String) (hp : p.data ≠ []) :
    p ++ s ++ t ≠ "" := by
  intro h
  have hd : (p ++ s ++ t).data = [] := by rw [h]
  simp only [String.data_append, List.append_eq_nil] at hd
  exact hp hd.1.1

/-! ## Claim theorems -/

/-- Claim C3, counterexample: `"TRUNCATE TABLE sales"` contains the
mutation keyword TRUNCATE, yet the base-class `validate_code` accepts it —
the default policy checks only DROP and DELETE. -/
theorem base_validate_five_keywords_cex :
    spec_claimed_mutation_reject "TRUNCATE TABLE sales" = true ∧
    containsKW "TRUNCATE TABLE sales" "TRUNCATE" = true ∧
    base_validate_code "TRUNCATE TABLE sales" = true := by decide

/-- Claim C3 (amended): the default (base-class) `validate_code` returns
false exactly when the query contains DROP or DELETE as a case-insensitive
substring; TRUNCATE, INSERT and UPDATE are not checked by the base class. -/
theorem base_validate_rejects_drop_delete_only (code : String) :
    base_validate_code code = false ↔
      (containsKW code "DROP" = true ∨ containsKW code "DELETE" = true) := by
  simp only [base_validate_code]
  split <;> simp_all

/-- Claim C5: `execute_safely` attempts `close()` if and only if
`connect()` succeeded, across every combination of capability-probe,
validate, connect and execute outcomes; and the outcome triple is
unaffected by what `close()` does, so a secondary exception raised by
`close()` never overrides the primary outcome. -/
theorem execute_safely_close_iff_connect (e : EngineSpec) (q : String)
    (c : Except PyExn Unit) :
    (execute_safely e q).2.closeAttempted =
      (execute_safely e q).2.connectSucceeded ∧
    (execute_safely { e with close := c } q).1 = (execute_safely e q).1 := by
  obtain ⟨hv, hx, val, con, exe, clo⟩ := e
  simp only [execute_safely, finallyClose, Events.none]
  cases hv <;> cases hx <;> simp <;>
    cases val q with
    | error ex => simp
    | ok b =>
      cases b <;> simp <;>
        cases con with
        | error ex2 => cases ex2 <;> simp
        | ok u =>
          cases exe q with
          | error ex3 => cases ex3 <;> simp
          | ok r => simp

/-- Claim C6: `execute_safely` is total (every backend exception is caught
and converted into an outcome), its `error` component is empty exactly on
success, every failure path returns the empty row list, and a `None`
result from the engine is normalised to the empty list. -/
theorem execute_safely_uniform_outcome (e : EngineSpec) (q : String) :
    ((execute_safely e q).1.error = "" ↔ (execute_safely e q).1.success = true) ∧
    ((execute_safely e q).1.success = false → (execute_safely e q).1.result = []) ∧
    (e.execute q = Except.ok none → (execute_safely e q).1.result = []) := by
  obtain ⟨hv, hx, val, con, exe, clo⟩ := e
  simp only [execute_safely, finallyClose, Events.none]
  cases hv <;> cases hx <;> simp <;>
    cases hval : val q with
    | error ex =>
        have := str_prefixed_ne_empty "SQL 校验过程异常: " ex.msg (by decide)
        simp [this]
    | ok b =>
      cases b with
      | false =>
          have := str_prefixed2_ne_empty "SQL 校验未通过: "
            (q.take 50) "..." (by decide)
          simp [this]
      | true =>
          simp
          cases con with
          | error ex2 =>
              cases ex2 with
              | valueError m =>
                  have := str_prefixed_ne_empty "SQL 执行失败: " m (by decide)
                  simp [this]
              | otherError m =>
                  have := str_prefixed_ne_empty "系统执行错误: " m (by decide)
                  simp [this]
          | ok u =>
              cases hexe : exe q with
              | error ex3 =>
                  cases ex3 with
                  | valueError m =>
                      have := str_prefixed_ne_empty "SQL 执行失败: " m (by decide)
                      simp [this]
                  | otherError m =>
                      have := str_prefixed_ne_empty "系统执行错误: " m (by decide)
                      simp [this]
              | ok r =>
                  cases r <;> simp

/-- Claim C6, witness at a concrete engine whose `execute_query` returns
`None`. -/
theorem execute_safely_uniform_outcome_witness :
    ((execute_safely engineNoneResult "SELECT 1").1.error = "" ↔
      (execute_safely engineNoneResult "SELECT 1").1.success = true) ∧
    (execute_safely engineNoneResult "SELECT 1").1.result = [] :=
  ⟨(execute_safely_uniform_outcome engineNoneResult "SELECT 1").1,
   (execute_safely_uniform_outcome engineNoneResult "SELECT 1").2.2 rfl⟩

/-- Claim C7: `get_failure_context` returns the empty string when there are
no failing records, and otherwise renders exactly the last `min 3 N` of
the `N` failing records, as a suffix of the failure list in chronological
order, each through `failureBlock` (step id, step name, query truncated to
100 characters, error). -/
theorem get_failure_context_last_three (history : List ExecRecord) :
    (history.filter (fun h => !h.success) = [] →
      get_failure_context history = "") ∧
    (history.filter (fun h => !h.success) ≠ [] →
      get_failure_context history =
        "【前期执行失败记录】\n" ++
          String.join
            ((((history.filter (fun h => !h.success)).reverse.take 3).reverse).map
              failureBlock)) ∧
    (((history.filter (fun h => !h.success)).reverse.take 3).reverse.length =
      min 3 (history.filter (fun h => !h.success)).length) ∧
    ((((history.filter (fun h => !h.success)).reverse.take 3).reverse) <:+
      history.filter (fun h => !h.success)) := by
  have hdrop : ∀ (l : List ExecRecord),
      l.drop (l.length - 3) = (l.reverse.take 3).reverse := by
    intro l
    have h := List.rtake_eq_reverse_take_reverse (l := l) (n := 3)
    simpa [List.rtake] using h
  refine ⟨?_, ?_, ?_, ?_⟩
  · intro h
    simp [get_failure_context, h]
  · intro h
    rw [get_failure_context, ← hdrop]
    simp [h]
  · rw [← hdrop, List.length_drop]
    omega
  · rw [← hdrop]
    exact List.drop_suffix _ _

/-- Claim C7, witness: four failures recorded; the context shows the last
three in order. -/
theorem get_failure_context_last_three_witness :
    get_failure_context sampleHistory =
      "【前期执行失败记录】\n" ++
        String.join
          ((((sampleHistory.filter (fun h => !h.success)).reverse.take 3).reverse).map
            failureBlock) ∧
    ((sampleHistory.filter (fun h => !h.success)).reverse.take 3).reverse.length =
      min 3 (sampleHistory.filter (fun h => !h.success)).length :=
  ⟨(get_failure_context_last_three sampleHistory).2.1 (by decide),
   (get_failure_context_last_three sampleHistory).2.2.1⟩

/-- Claim C4, counterexample: the generation call of the first attempt
raises and the second attempt would succeed, yet `correct` returns absent
after exactly one attempt with no backoff sleep — the claimed second
attempt (which would have returned the revised query) never happens,
because the exception is caught inside the method body and never reaches
the retry decorator. -/
theorem correct_no_second_attempt_cex :
    (correct_run [Except.error (PyExn.otherError "API down"),
        Except.ok "SELECT 1"]).1 = Except.ok none ∧
    (correct_run [Except.error (PyExn.otherError "API down"),
        Except.ok "SELECT 1"]).2.1 = 1 ∧
    (correct_run [Except.error (PyExn.otherError "API down"),
        Except.ok "SELECT 1"]).2.2 = 0 := by decide

/-- Claim C4 (amended): `correct` makes exactly one generation attempt —
the `try/except` inside the body converts any exception from the
generation call into a `None` return, so the `@retry(stop_after_attempt(2))`
decorator never observes an exception and never retries or sleeps; on any
generation failure (in particular consecutive capability failures)
`correct` returns absent rather than raising. -/
theorem correct_single_attempt_returns_absent
    (outcomes : List (Except PyExn String)) :
    (correct_run outcomes).2.1 = 1 ∧
    (correct_run outcomes).2.2 = 0 ∧
    (correct_run outcomes).1 =
      Except.ok (correct_body
        (outcomes.getD 0 (Except.error (PyExn.otherError "no call")))) ∧
    (∀ m rest, outcomes = Except.error m :: rest →
      (correct_run outcomes).1 = Except.ok none) := by
  refine ⟨rfl, rfl, rfl, ?_⟩
  intro m rest h
  subst h
  rfl

/-- Claim C4, witness: two consecutive capability failures; `correct`
returns absent. -/
theorem correct_single_attempt_returns_absent_witness :
    (correct_run [Except.error (PyExn.otherError "boom"),
        Except.error (PyExn.otherError "boom again")]).1 = Except.ok none :=
  (correct_single_attempt_returns_absent
      [Except.error (PyExn.otherError "boom"),
       Except.error (PyExn.otherError "boom again")]).2.2.2
    (PyExn.otherError "boom") [Except.error (PyExn.otherError "boom again")] rfl

/-- Claim C9, counterexample: on an unconnected `SparkEngine` and the query
`"SELECT * FROM t LIMIT 10"` (no forbidden keyword, `LIMIT` present),
`validate_code` returns `False` — the `AttributeError` raised by
dereferencing the absent session inside the dry-run `try` block is caught
by its own handler, so no exception escapes.  `execute_safely` therefore
reports the validation-FAIL outcome (`SQL 校验未通过`), not the claimed
validation-exception outcome (`SQL 校验过程异常`); `connect()` is indeed
never called. -/
theorem spark_unconnected_validate_cex :
    spark_validate_code none "SELECT * FROM t LIMIT 10" = false ∧
    (execute_safely sparkUnconnected "SELECT * FROM t LIMIT 10").1 =
      ⟨false, [], "SQL 校验未通过: SELECT * FROM t LIMIT 10..."⟩ ∧
    (execute_safely sparkUnconnected "SELECT * FROM t LIMIT 10").2.connectCalled
      = false := by decide

/-- Claim C9 (amended): for every query with no forbidden keyword and at
least one safe keyword, the unconnected engine's `validate_code` returns
false (the dry-run's exception handler catches the `AttributeError` from
the absent session), and `execute_safely` on that engine reports the
validation-failure outcome without ever calling `connect()`. -/
theorem spark_unconnected_validation_fail (q : String)
    (hforb : spark_forbidden.any (fun w => containsKW q w) = false)
    (hsafe : spark_safe.any (fun w => containsKW q w) = true) :
    spark_validate_code none q = false ∧
    (execute_safely sparkUnconnected q).1 =
      ⟨false, [], "SQL 校验未通过: " ++ q.take 50 ++ "..."⟩ ∧
    (execute_safely sparkUnconnected q).2 = Events.none := by
  have hval : spark_validate_code none q = false := by
    simp [spark_validate_code, hforb, hsafe]
  refine ⟨hval, ?_, ?_⟩ <;> simp [execute_safely, sparkUnconnected, hval]

/-- Claim C9, witness at a safe aggregate query. -/
theorem spark_unconnected_validation_fail_witness :
    spark_validate_code none "SELECT COUNT(1) FROM logs" = false ∧
    (execute_safely sparkUnconnected "SELECT COUNT(1) FROM logs").1 =
      ⟨false, [],
        "SQL 校验未通过: " ++ ("SELECT COUNT(1) FROM logs").take 50 ++ "..."⟩ ∧
    (execute_safely sparkUnconnected "SELECT COUNT(1) FROM logs").2 =
      Events.none :=
  spark_unconnected_validation_fail "SELECT COUNT(1) FROM logs"
    (by decide) (by decide)

/-- Claim C2 (spec-modelled resilient executor): when the primary engine's
`connect` raises, fallback is enabled and a fallback engine is configured,
and the fallback engine's safe execution succeeds, the step is satisfied by
the fallback path and the metrics count one fallback-success, zero
primary-success and zero total-failure. -/
theorem fallback_success_metrics (p fb : EngineSpec) (q cmsg : String)
    (hv : p.has_validate = true) (hx : p.has_execute = true)
    (hval : p.validate q = Except.ok true)
    (hconn : p.connect = Except.error (PyExn.otherError cmsg))
    (hfb : (execute_safely fb q).1.success = true) :
    (resilient_execute p (some fb) true ExecMetrics.zero q).2 =
      { primary_success := 0, fallback_success := 1, total_failure := 0 } ∧
    (resilient_execute p (some fb) true ExecMetrics.zero q).1 =
      (execute_safely fb q).1 := by
  have h1 : (execute_safely p q).1.success = false := by
    simp [execute_safely, hv, hx, hval, hconn]
  constructor <;> simp [resilient_execute, h1, hfb, ExecMetrics.zero]

/-- Claim C2, witness: a primary whose `connect` raises and a healthy
fallback. -/
theorem fallback_success_metrics_witness :
    (resilient_execute primaryConnFail (some fallbackOk) true
        ExecMetrics.zero "SELECT 42").2 =
      { primary_success := 0, fallback_success := 1, total_failure := 0 } ∧
    (resilient_execute primaryConnFail (some fallbackOk) true
        ExecMetrics.zero "SELECT 42").1 =
      (execute_safely fallbackOk "SELECT 42").1 :=
  fallback_success_metrics primaryConnFail fallbackOk "SELECT 42"
    "cluster unreachable" rfl rfl rfl rfl (by decide)

/-- Claim C1, counterexample: a step whose first execution fails, whose
corrector returns a revised query, and whose re-execution succeeds leaves
the Execution Memory with exactly one record — the successful final
outcome — and zero failing records: the failed first attempt is never
recorded, contradicting the claim that the memory contains one failing
record for the first attempt. -/
theorem analyze_memory_no_failing_record_cex :
    (processStep envCorrected emptyState step1).history =
      [{ step_id := 1, step_name := "agg", query := "SELECT SUM(x) FROM t"
         success := true, result_preview := some "[7]", error := some "" }] ∧
    ((processStep envCorrected emptyState step1).history.filter
        (fun r => !r.success)).length = 0 ∧
    (processStep envCorrected emptyState step1).history.length = 1 := by decide

/-- Claim C1 (amended): the orchestrator records only the final outcome of
each SQL step — when the first execution fails, the corrector returns a
non-empty revised query, and re-execution succeeds, exactly one record is
appended, it reflects the successful final outcome, and the number of
failing records in the memory does not change (no failing record is added
for the first attempt). -/
theorem analyze_records_final_outcome_only (env : StepEnv) (st : AgentState)
    (step : AnalysisStep) (rq : String)
    (htool : step.tool_needed = "SQL_Executor")
    (h1 : env.exec1.success = false) (he : env.exec1.error ≠ "")
    (hc : env.corrected = some rq) (hrq : rq ≠ "")
    (h2 : env.exec2.success = true) :
    (processStep env st step).history =
      st.history ++
        [{ step_id := step.step_id, step_name := step.step_name
           query := step.description, success := true
           result_preview := some ((strOfRows env.exec2.result).take 200)
           error := some env.exec2.error }] ∧
    ((processStep env st step).history.filter (fun r => !r.success)).length =
      (st.history.filter (fun r => !r.success)).length := by
  constructor
  · simp [processStep, htool, h1, he, hc, hrq, record_step, h2]
  · simp [processStep, htool, h1, he, hc, hrq, record_step,
      List.filter_append, h2]

/-- Claim C1, witness: the concrete correction scenario, applied to the
amended theorem. -/
theorem analyze_records_final_outcome_only_witness :
    (processStep envCorrected emptyState step1).history =
      emptyState.history ++
        [{ step_id := step1.step_id, step_name := step1.step_name
           query := step1.description, success := true
           result_preview := some ((strOfRows envCorrected.exec2.result).take 200)
           error := some envCorrected.exec2.error }] ∧
    ((processStep envCorrected emptyState step1).history.filter
        (fun r => !r.success)).length =
      (emptyState.history.filter (fun r => !r.success)).length :=
  analyze_records_final_outcome_only envCorrected emptyState step1
    "SELECT SUM(x) FROM t2" rfl rfl (by decide) rfl (by decide) rfl

/-- Claim C10: a step whose `tool_needed` is `Python_Plotter` or
`RAG_Search` (indeed any value other than `SQL_Executor`) leaves the
Execution Memory, the results mapping and the data accumulator untouched;
a `SQL_Executor` step appends exactly one execution record and exactly one
entry (keyed `step_<id>`) to the results mapping. -/
theorem non_sql_steps_no_effect (env : StepEnv) (st : AgentState)
    (step : AnalysisStep) :
    (step.tool_needed = "Python_Plotter" ∨ step.tool_needed = "RAG_Search" →
      processStep env st step = st) ∧
    (step.tool_needed ≠ "SQL_Executor" → processStep env st step = st) ∧
    (step.tool_needed = "SQL_Executor" →
      (processStep env st step).history.length = st.history.length + 1 ∧
      (processStep env st step).results.map Prod.fst =
        st.results.map Prod.fst ++ ["step_" ++ toString step.step_id]) := by
  refine ⟨?_, ?_, ?_⟩
  · rintro (h | h) <;> simp [processStep, h]
  · intro h; simp [processStep, h]
  · intro h
    constructor
    · simp [processStep, h, record_step]
    · simp [processStep, h]

/-- Claim C10, witness: a `Python_Plotter` step leaves the state unchanged
even when execution outcomes are available. -/
theorem non_sql_steps_no_effect_witness :
    processStep envCorrected emptyState stepPlot = emptyState :=
  (non_sql_steps_no_effect envCorrected emptyState stepPlot).1 (Or.inl rfl)

/-- Claim C8: `generate_plan` retries only on parse/validation failure with
waits of 2 then 4 seconds (`2^n` clamped into `[2, 10]`), raising the last
error after the 3rd attempt when every response is malformed (total
backoff 2+4=6); an exception from the generation call itself propagates on
the first attempt without retry; a success on any attempt short-circuits;
and a markdown-fenced response with trailing prose is cleaned by
`extract_json` to exactly the plan object text, so it parses into the
plan on the first attempt. -/
theorem generate_plan_retry_policy
    (pv : String → Except String AnalysisPlan) :
    (∀ t1 t2 t3 m1 m2 m3,
        pv (extract_json t1) = Except.error m1 →
        pv (extract_json t2) = Except.error m2 →
        pv (extract_json t3) = Except.error m3 →
        generate_plan_run pv [Except.ok t1, Except.ok t2, Except.ok t3] =
          (Except.error (PlanErr.parseFail m3), 3, 6)) ∧
    (∀ em rest,
        generate_plan_run pv (Except.error em :: rest) =
          (Except.error (PlanErr.transport em.msg), 1, 0)) ∧
    (∀ t plan rest, pv (extract_json t) = Except.ok plan →
        generate_plan_run pv (Except.ok t :: rest) = (Except.ok plan, 1, 0)) ∧
    (∀ t1 m1 t2 plan rest,
        pv (extract_json t1) = Except.error m1 →
        pv (extract_json t2) = Except.ok plan →
        generate_plan_run pv (Except.ok t1 :: Except.ok t2 :: rest) =
          (Except.ok plan, 2, 2)) ∧
    extract_json wrappedResponse = planJsonText ∧
    (∀ plan rest, pv planJsonText = Except.ok plan →
        generate_plan_run pv (Except.ok wrappedResponse :: rest) =
          (Except.ok plan, 1, 0)) := by
  have hw : extract_json wrappedResponse = planJsonText := by decide
  have w1 : planner_wait 1 = 2 := by decide
  have w2 : planner_wait 2 = 4 := by decide
  refine ⟨?_, ?_, ?_, ?_, hw, ?_⟩
  · intro t1 t2 t3 m1 m2 m3 h1 h2 h3
    simp [generate_plan_run, tenacityRun, tenacityGo, plan_body,
      planErrRetryable, h1, h2, h3, w1, w2]
  · intro em rest
    simp [generate_plan_run, tenacityRun, tenacityGo, plan_body,
      planErrRetryable]
  · intro t plan rest h
    simp [generate_plan_run, tenacityRun, tenacityGo, plan_body, h]
  · intro t1 m1 t2 plan rest h1 h2
    simp [generate_plan_run, tenacityRun, tenacityGo, plan_body,
      planErrRetryable, h1, h2, w1]
  · intro plan rest h
    simp [generate_plan_run, tenacityRun, tenacityGo, plan_body, hw, h]

/-- Claim C8, witness: with a parse oracle that accepts exactly the plan
object text, three prose-only responses raise after 3 attempts and 6
seconds of backoff, while the markdown-fenced response yields the
(structurally valid) plan on the first attempt. -/
theorem generate_plan_retry_policy_witness :
    planValid samplePlan = true ∧
    generate_plan_run samplePV
        [Except.ok badResponse, Except.ok badResponse, Except.ok badResponse] =
      (Except.error (PlanErr.parseFail "Expecting value: line 1 column 1"),
        3, 6) ∧
    generate_plan_run samplePV [Except.ok wrappedResponse] =
      (Except.ok samplePlan, 1, 0) :=
  ⟨by decide,
   (generate_plan_retry_policy samplePV).1 badResponse badResponse badResponse
     "Expecting value: line 1 column 1" "Expecting value: line 1 column 1"
     "Expecting value: line 1 column 1" (by decide) (by decide) (by decide),
   (generate_plan_retry_policy samplePV).2.2.2.2.2 samplePlan [] (by decide)⟩

end Agent
